import Mathlib

/-!
Verification of the Vaulty icon/favicon generators.

The development shallowly embeds the two scripts `generate_icon.py` and
`generate_favicon.py`.  Geometry is modelled over `ℚ` (Python floats carry
exact products of the integer canvas size with short decimal constants here;
all constants are exactly representable and the claims are about the ideal
arithmetic the code writes down).  The Pillow drawing primitives are out of
scope per the spec; the pipeline structure (canvas sizes, order of drawing
and compositing operations, the single resize) is embedded as an operation
trace, and canvases carry their dimensions.
-/

namespace GenerateIcon

/-- Constant `s * 0.50` from `draw_v` (`tip_x = s * 0.50`, the horizontal
centre). -/
def tip_x (s : ℚ) : ℚ := s * 0.50

/-- Constant `s * 0.74` from `draw_v` (`tip_y`, the bottom apex). -/
def tip_y (s : ℚ) : ℚ := s * 0.74

/-- Constant `s * 0.175` from `draw_v` (`thick`, the arm thickness). -/
def thick (s : ℚ) : ℚ := s * 0.175

/-- Constant `s * 0.16` from `draw_v` (`pad`, the outer padding). -/
def pad (s : ℚ) : ℚ := s * 0.16

/-- Vertex `apex_out = (tip_x - thick * 0.38, tip_y)` from `draw_v`. -/
def apex_out (s : ℚ) : ℚ × ℚ := (tip_x s - thick s * 0.38, tip_y s)

/-- Vertex `apex_in = (tip_x, tip_y - thick * 0.55)` from `draw_v`. -/
def apex_in (s : ℚ) : ℚ × ℚ := (tip_x s, tip_y s - thick s * 0.55)

/-- The `left_arm` vertex list of `draw_v`:
`[(lx0, ly0), (lx1, ly1), apex_in, apex_out]` with `lx0 = pad`, `ly0 = pad`,
`lx1 = pad + thick`, `ly1 = pad`. -/
def left_arm (s : ℚ) : List (ℚ × ℚ) :=
  [(pad s, pad s), (pad s + thick s, pad s), apex_in s, apex_out s]

/-- The effective `right_arm` of `draw_v`.  The code first builds a list from
`rx0, rx1` and then immediately overwrites the variable with the mirror
comprehension `[(2 * tip_x - x, y) for (x, y) in left_arm]`; this final value
is the one that gets drawn. -/
def right_arm (s : ℚ) : List (ℚ × ℚ) :=
  (left_arm s).map (fun p => (2 * tip_x s - p.1, p.2))

end GenerateIcon

namespace GenerateFavicon

/-- Constant `size * 0.18` from `make_vaulty_favicon` (`margin`). -/
def margin (s : ℚ) : ℚ := s * 0.18

/-- Constant `size * 0.22` from `make_vaulty_favicon` (`top_y`). -/
def top_y (s : ℚ) : ℚ := s * 0.22

/-- Constant `size * 0.78` from `make_vaulty_favicon` (`bot_y`). -/
def bot_y (s : ℚ) : ℚ := s * 0.78

/-- Constant `size / 2` from `make_vaulty_favicon` (`mid_x`). -/
def mid_x (s : ℚ) : ℚ := s / 2

/-- Constant `size * 0.13` from `make_vaulty_favicon` (`thick`, the half-width
of each arm). -/
def thick (s : ℚ) : ℚ := s * 0.13

/-- `left_outer_x = margin`. -/
def left_outer_x (s : ℚ) : ℚ := margin s

/-- `left_inner_x = margin + thick * 1.6`. -/
def left_inner_x (s : ℚ) : ℚ := margin s + thick s * 1.6

/-- `right_outer_x = size - margin`. -/
def right_outer_x (s : ℚ) : ℚ := s - margin s

/-- `right_inner_x = size - margin - thick * 1.6`. -/
def right_inner_x (s : ℚ) : ℚ := s - margin s - thick s * 1.6

/-- The six-point `v_poly` vertex list of `make_vaulty_favicon`. -/
def v_poly (s : ℚ) : List (ℚ × ℚ) :=
  [(left_outer_x s, top_y s),
   (left_inner_x s, top_y s),
   (mid_x s, bot_y s - thick s * 0.9),
   (right_inner_x s, top_y s),
   (right_outer_x s, top_y s),
   (mid_x s, bot_y s)]

/-- The `right_half` overlay polygon of `make_vaulty_favicon` (two-tone
violet overlay on the right half of the V). -/
def right_half (s : ℚ) : List (ℚ × ℚ) :=
  [(mid_x s, top_y s),
   (right_inner_x s, top_y s),
   (right_outer_x s, top_y s),
   (mid_x s, bot_y s)]

end GenerateFavicon

/-- Python `int()` applied to a rational: truncation toward zero. -/
def pyInt (q : ℚ) : ℤ := if 0 ≤ q then ⌊q⌋ else ⌈q⌉

namespace GenerateIcon

/-- Brand colour `INDIGO_TOP = (99, 102, 241)`. -/
def INDIGO_TOP : ℤ × ℤ × ℤ := (99, 102, 241)

/-- Brand colour `INDIGO_BOTTOM = (67, 56, 202)`. -/
def INDIGO_BOTTOM : ℤ × ℤ × ℤ := (67, 56, 202)

/-- Brand colour `WHITE = (255, 255, 255)`. -/
def WHITE : ℤ × ℤ × ℤ := (255, 255, 255)

/-- The pixel value `vertical_gradient` computes for row `y`:
`t = y / (size - 1)` and, per channel, `int(top_c + (bot_c - top_c) * t)`. -/
def gradRow (size : ℕ) (top bot : ℤ × ℤ × ℤ) (y : ℕ) : ℤ × ℤ × ℤ :=
  let t : ℚ := (y : ℚ) / ((size : ℚ) - 1)
  (pyInt ((top.1 : ℚ) + ((bot.1 : ℚ) - (top.1 : ℚ)) * t),
   pyInt ((top.2.1 : ℚ) + ((bot.2.1 : ℚ) - (top.2.1 : ℚ)) * t),
   pyInt ((top.2.2 : ℚ) + ((bot.2.2 : ℚ) - (top.2.2 : ℚ)) * t))

/-- `vertical_gradient(size, top_rgb, bot_rgb)`: the image as a list of
`size` rows of `size` pixels each.  The Python loop body computes
`t = y / (size - 1)`; when the loop executes at least once (`1 ≤ size`) and
the divisor `size - 1` is zero, Python raises `ZeroDivisionError`, modelled
as `none`.  When `size = 0` the loop never runs and an empty image is
returned. -/
def vertical_gradient (size : ℕ) (top bot : ℤ × ℤ × ℤ) :
    Option (List (List (ℤ × ℤ × ℤ))) :=
  if 1 ≤ size ∧ size - 1 = 0 then none
  else some ((List.range size).map (fun y => List.replicate size (gradRow size top bot y)))

/-- Specification of `vertical_gradient` for sizes at least 2: the call
succeeds with a `size × size` image; the pixel at column `x` of row `y` is,
per channel `c`, `int(top_c + (bot_c - top_c) * y / (size - 1))`; row `0` is
exactly `top`, row `size - 1` is exactly `bot`, and all pixels within a row
are equal. -/
def gradSpec (size : ℕ) (top bot : ℤ × ℤ × ℤ) : Prop :=
  ∃ img, vertical_gradient size top bot = some img ∧
    img.length = size ∧
    (∀ row ∈ img, row.length = size) ∧
    (∀ y x : ℕ, y < size → x < size →
      img[y]?.bind (fun row => row[x]?) = some
        (pyInt ((top.1 : ℚ) + ((bot.1 : ℚ) - (top.1 : ℚ)) * ((y : ℚ) / ((size : ℚ) - 1))),
         pyInt ((top.2.1 : ℚ) + ((bot.2.1 : ℚ) - (top.2.1 : ℚ)) * ((y : ℚ) / ((size : ℚ) - 1))),
         pyInt ((top.2.2 : ℚ) + ((bot.2.2 : ℚ) - (top.2.2 : ℚ)) * ((y : ℚ) / ((size : ℚ) - 1))))) ∧
    (∀ x : ℕ, x < size → img[0]?.bind (fun row => row[x]?) = some top) ∧
    (∀ x : ℕ, x < size → img[size - 1]?.bind (fun row => row[x]?) = some bot) ∧
    (∀ row ∈ img, ∀ p ∈ row, ∀ q ∈ row, p = q)

end GenerateIcon

/-- Pointwise scaling of a 2-D point by a factor `k`. -/
def scalePt (k : ℚ) (p : ℚ × ℚ) : ℚ × ℚ := (k * p.1, k * p.2)

/-- All vertices of a point list lie inside the closed square canvas
`[0, s] × [0, s]`. -/
def inCanvas (s : ℚ) (pts : List (ℚ × ℚ)) : Prop :=
  ∀ p ∈ pts, 0 ≤ p.1 ∧ p.1 ≤ s ∧ 0 ≤ p.2 ∧ p.2 ≤ s

/-- Canvas dimensions, the only property of a Pillow image the pipeline
claims depend on. -/
structure Canvas where
  width : ℕ
  height : ℕ
  deriving DecidableEq

/-- Resampling filters; the code only ever passes `Image.LANCZOS`. -/
inductive Resample where
  | nearest
  | bilinear
  | lanczos
  deriving DecidableEq

/-- One drawing or compositing operation of a pipeline, tagged with the size
of the square canvas it works on (for `resize`, the target dimensions and
the resampling filter). -/
inductive DrawOp where
  | newCanvas (w h : ℕ)
  | gradientFill (s : ℕ)
  | maskPaste (s : ℕ)
  | roundedRectFill (s : ℕ)
  | roundedRectOutline (s : ℕ)
  | polygonFill (s : ℕ)
  | alphaComposite (s : ℕ)
  | resize (w h : ℕ) (f : Resample)
  deriving DecidableEq

/-- Whether an operation is a resampling (resize) step. -/
def DrawOp.isResize : DrawOp → Bool
  | .resize _ _ _ => true
  | _ => false

/-- The canvas size an operation works on (target width for `resize`). -/
def DrawOp.canvasSize : DrawOp → ℕ
  | .newCanvas w _ => w
  | .gradientFill s => s
  | .maskPaste s => s
  | .roundedRectFill s => s
  | .roundedRectOutline s => s
  | .polygonFill s => s
  | .alphaComposite s => s
  | .resize w _ _ => w

/-- `Image.new`: a fresh canvas of the given dimensions. -/
def newCanvas (w h : ℕ) : Canvas := ⟨w, h⟩

/-- `Image.alpha_composite(base, layer)`: Pillow requires both images to have
equal sizes and the result has the base's dimensions. -/
def alpha_composite (base layer : Canvas) : Canvas := base

/-- `img.resize((w, h), filter)`: the result has the requested dimensions. -/
def resizeCanvas (c : Canvas) (w h : ℕ) (f : Resample) : Canvas := ⟨w, h⟩

namespace GenerateIcon

/-- Supersampling factor `SCALE = 4` of `make_icon`. -/
def SCALE : ℕ := 4

/-- `SIZES = [16, 32, 48, 128]`. -/
def SIZES : List ℕ := [16, 32, 48, 128]

/-- `OUT_DIR = "extension/icons"`. -/
def OUT_DIR : String := "extension/icons"

/-- The operation trace of `make_icon(size)`: all background, masking and
glyph drawing happens at `S = size * SCALE`, followed by the single
`resize((size, size), Image.LANCZOS)`. -/
def make_icon_trace (size : ℕ) : List DrawOp :=
  [DrawOp.gradientFill (size * SCALE),
   DrawOp.newCanvas (size * SCALE) (size * SCALE),
   DrawOp.newCanvas (size * SCALE) (size * SCALE),
   DrawOp.roundedRectFill (size * SCALE),
   DrawOp.maskPaste (size * SCALE),
   DrawOp.newCanvas (size * SCALE) (size * SCALE),
   DrawOp.polygonFill (size * SCALE),
   DrawOp.polygonFill (size * SCALE),
   DrawOp.alphaComposite (size * SCALE),
   DrawOp.resize size size Resample.lanczos]

/-- The canvas returned by `make_icon(size)`: the supersampled base is
resized once to `(size, size)` with LANCZOS. -/
def make_icon (size : ℕ) : Canvas :=
  let base := newCanvas (size * SCALE) (size * SCALE)
  let layer := newCanvas (size * SCALE) (size * SCALE)
  resizeCanvas (alpha_composite base layer) size size Resample.lanczos

/-- The output path `f"{OUT_DIR}/icon-{sz}.png"` of the main loop. -/
def icon_path (sz : ℕ) : String := OUT_DIR ++ "/icon-" ++ toString sz ++ ".png"

/-- The main loop of `generate_icon.py`: for each size in `SIZES`, render
`make_icon(sz)` independently and pair it with its output path. -/
def main_run : List (String × Canvas) := SIZES.map (fun sz => (icon_path sz, make_icon sz))

/-- The main loop with a fallible `icon.save`: writes proceed in `SIZES`
order; a successful save appends the size to the written list, a failing
save raises and aborts the loop at once, leaving the files already written
on disk.  Returns the sizes whose files exist afterwards, and whether the
run completed. -/
def run_writes (saveOk : ℕ → Bool) : List ℕ → List ℕ × Bool
  | [] => ([], true)
  | sz :: rest =>
    if saveOk sz then
      ((run_writes saveOk rest).1.cons sz, (run_writes saveOk rest).2)
    else ([], false)

end GenerateIcon

namespace GenerateFavicon

/-- One iteration of the highlight-ring loop of `make_vaulty_favicon`:
`od.rounded_rectangle([(i, i), (size - 1 - i, size - 1 - i)], radius,
outline=(*highlight, alpha), width=1)` drawn on a fresh transparent overlay
that is alpha-composited onto the accumulating image, with
`alpha = max(0, 60 - i * 15)`. -/
structure RingOp where
  inset : ℕ
  corner0 : ℤ × ℤ
  corner1 : ℤ × ℤ
  outlineWidth : ℕ
  alpha : ℤ
  freshOverlay : Bool
  deriving DecidableEq

/-- The four highlight-ring iterations `for i in range(4)` of
`make_vaulty_favicon`. -/
def highlight_rings (size : ℕ) : List RingOp :=
  (List.range 4).map (fun i =>
    { inset := i,
      corner0 := ((i : ℤ), (i : ℤ)),
      corner1 := ((size : ℤ) - 1 - (i : ℤ), (size : ℤ) - 1 - (i : ℤ)),
      outlineWidth := 1,
      alpha := max 0 (60 - (i : ℤ) * 15),
      freshOverlay := true })

/-- The operation trace of `make_vaulty_favicon(size)`: everything is drawn
directly at the requested size; there is no resize step. -/
def favicon_trace (size : ℕ) : List DrawOp :=
  [DrawOp.newCanvas size size, DrawOp.roundedRectFill size] ++
  ((List.range 4).map (fun _ =>
    [DrawOp.newCanvas size size, DrawOp.roundedRectOutline size, DrawOp.alphaComposite size])).flatten ++
  [DrawOp.polygonFill size, DrawOp.newCanvas size size, DrawOp.polygonFill size, DrawOp.alphaComposite size]

/-- The canvas returned by `make_vaulty_favicon(size)`: composites of
same-size canvases starting from `Image.new("RGBA", (size, size))`. -/
def make_vaulty_favicon (size : ℕ) : Canvas :=
  let img := newCanvas size size
  let img2 := alpha_composite img (newCanvas size size)
  alpha_composite img2 (newCanvas size size)

/-- `sizes = [16, 32, 48, 64]` of `save_favicon`. -/
def sizes : List ℕ := [16, 32, 48, 64]

/-- The single writer invocation of `save_favicon`. -/
structure IcoSave where
  renderedSizes : List ℕ
  format : String
  sizesArg : List (ℕ × ℕ)
  fileCount : ℕ
  deriving DecidableEq

/-- `save_favicon(path)`: renders `make_vaulty_favicon(sizes[-1])` once and
calls `largest.save(path, format="ICO", sizes=[(s, s) for s in sizes])`,
writing a single file. -/
def save_favicon : IcoSave :=
  { renderedSizes := [sizes.getLastD 0],
    format := "ICO",
    sizesArg := sizes.map (fun s => (s, s)),
    fileCount := 1 }

end GenerateFavicon

/-- Claim C1: in `draw_v`, the right-arm polygon is exactly the pointwise
mirror of the left-arm polygon across the vertical centre line
`x = centerX = size / 2`: a point lies in the right arm iff it is
`(2 * centerX - x, y)` for some `(x, y)` in the left arm, and the lists
correspond vertex by vertex. -/
theorem draw_v_right_arm_mirrors_left (s : ℚ) :
    GenerateIcon.right_arm s =
      (GenerateIcon.left_arm s).map (fun p => (2 * (s / 2) - p.1, p.2)) ∧
    ∀ p : ℚ × ℚ, p ∈ GenerateIcon.right_arm s ↔
      ∃ q ∈ GenerateIcon.left_arm s, p = (2 * (s / 2) - q.1, q.2) := by
  have htip : GenerateIcon.tip_x s = s / 2 := by
    unfold GenerateIcon.tip_x
    norm_num
    ring
  constructor
  · unfold GenerateIcon.right_arm
    rw [htip]
  · intro p
    unfold GenerateIcon.right_arm
    rw [htip]
    simp only [List.mem_map]
    constructor
    · rintro ⟨q, hq, rfl⟩
      exact ⟨q, hq, rfl⟩
    · rintro ⟨q, hq, rfl⟩
      exact ⟨q, hq, rfl⟩

/-- Claim C2: for positive sizes `S1 < S2`, every V-polygon vertex list
(`left_arm` and `right_arm` of the icon variant's `draw_v`, and `v_poly` of
the favicon variant) computed at `S2` is the list computed at `S1` with every
coordinate multiplied by `S2 / S1`; every vertex coordinate is the size times
a fixed constant. -/
theorem v_polygons_scale_proportionally (S1 S2 : ℚ) (h1 : 0 < S1) (h2 : S1 < S2) :
    GenerateIcon.left_arm S2 = (GenerateIcon.left_arm S1).map (scalePt (S2 / S1)) ∧
    GenerateIcon.right_arm S2 = (GenerateIcon.right_arm S1).map (scalePt (S2 / S1)) ∧
    GenerateFavicon.v_poly S2 = (GenerateFavicon.v_poly S1).map (scalePt (S2 / S1)) := by
  have h0 : S1 ≠ 0 := ne_of_gt h1
  refine ⟨?_, ?_, ?_⟩ <;>
    simp only [GenerateIcon.left_arm, GenerateIcon.right_arm, GenerateIcon.apex_in,
      GenerateIcon.apex_out, GenerateIcon.tip_x, GenerateIcon.tip_y, GenerateIcon.thick,
      GenerateIcon.pad, GenerateFavicon.v_poly, GenerateFavicon.left_outer_x,
      GenerateFavicon.left_inner_x, GenerateFavicon.right_outer_x,
      GenerateFavicon.right_inner_x, GenerateFavicon.margin, GenerateFavicon.top_y,
      GenerateFavicon.bot_y, GenerateFavicon.mid_x, GenerateFavicon.thick,
      scalePt, List.map, List.cons.injEq, Prod.mk.injEq, and_true] <;>
    repeat' apply And.intro <;>
    field_simp <;>
    ring

/-- Concrete instance of claim C2 at `S1 = 16`, `S2 = 32`. -/
theorem v_polygons_scale_proportionally_witness :
    GenerateIcon.left_arm 32 = (GenerateIcon.left_arm 16).map (scalePt (32 / 16)) ∧
    GenerateIcon.right_arm 32 = (GenerateIcon.right_arm 16).map (scalePt (32 / 16)) ∧
    GenerateFavicon.v_poly 32 = (GenerateFavicon.v_poly 16).map (scalePt (32 / 16)) :=
  v_polygons_scale_proportionally 16 32 (by norm_num) (by norm_num)

/-- Claim C10: for every positive canvas size `S`, every vertex of every
V-glyph polygon produced by either variant (icon `left_arm`/`right_arm`,
favicon `v_poly` and its `right_half` overlay) lies inside the canvas:
`0 ≤ x ≤ S` and `0 ≤ y ≤ S`. -/
theorem glyph_vertices_in_canvas (s : ℚ) (h : 0 < s) :
    inCanvas s (GenerateIcon.left_arm s) ∧ inCanvas s (GenerateIcon.right_arm s) ∧
    inCanvas s (GenerateFavicon.v_poly s) ∧ inCanvas s (GenerateFavicon.right_half s) := by
  refine ⟨?_, ?_, ?_, ?_⟩ <;>
  · intro p hp
    simp only [GenerateIcon.left_arm, GenerateIcon.right_arm, GenerateIcon.apex_in,
      GenerateIcon.apex_out, GenerateIcon.tip_x, GenerateIcon.tip_y, GenerateIcon.thick,
      GenerateIcon.pad, GenerateFavicon.v_poly, GenerateFavicon.right_half,
      GenerateFavicon.left_outer_x, GenerateFavicon.left_inner_x,
      GenerateFavicon.right_outer_x, GenerateFavicon.right_inner_x,
      GenerateFavicon.margin, GenerateFavicon.top_y, GenerateFavicon.bot_y,
      GenerateFavicon.mid_x, GenerateFavicon.thick, List.map, List.mem_cons,
      List.not_mem_nil, or_false] at hp
    rcases hp with rfl | rfl | rfl | rfl | rfl | rfl <;>
      refine ⟨by nlinarith, by nlinarith, by nlinarith, by nlinarith⟩

/-- Concrete instance of claim C10 at `S = 64`. -/
theorem glyph_vertices_in_canvas_witness :
    inCanvas 64 (GenerateIcon.left_arm 64) ∧ inCanvas 64 (GenerateIcon.right_arm 64) ∧
    inCanvas 64 (GenerateFavicon.v_poly 64) ∧ inCanvas 64 (GenerateFavicon.right_half 64) :=
  glyph_vertices_in_canvas 64 (by norm_num)

/-- Truncation toward zero is the identity on integers. -/
theorem pyInt_intCast (n : ℤ) : pyInt (n : ℚ) = n := by
  unfold pyInt
  split <;> simp

/-- Indexing into the gradient image: the pixel at column `x` of row `y` is
the row colour `gradRow size top bot y`. -/
theorem grad_img_pixel (size : ℕ) (top bot : ℤ × ℤ × ℤ) (y x : ℕ)
    (hy : y < size) (hx : x < size) :
    (((List.range size).map
        (fun y => List.replicate size (GenerateIcon.gradRow size top bot y)))[y]?.bind
      (fun row => row[x]?)) = some (GenerateIcon.gradRow size top bot y) := by
  simp [List.getElem?_map, List.getElem?_range, List.getElem?_replicate, hy, hx]

/-- At row `0` the interpolation parameter is `0`, so the row colour is
exactly the top colour. -/
theorem gradRow_zero (size : ℕ) (top bot : ℤ × ℤ × ℤ) :
    GenerateIcon.gradRow size top bot 0 = top := by
  obtain ⟨t1, t2, t3⟩ := top
  simp [GenerateIcon.gradRow, pyInt_intCast]

/-- At row `size - 1` the interpolation parameter is `1`, so the row colour
is exactly the bottom colour. -/
theorem gradRow_last (size : ℕ) (top bot : ℤ × ℤ × ℤ) (h : 2 ≤ size) :
    GenerateIcon.gradRow size top bot (size - 1) = bot := by
  obtain ⟨t1, t2, t3⟩ := top
  obtain ⟨b1, b2, b3⟩ := bot
  have h1 : (1 : ℕ) ≤ size := by omega
  have hc : ((size - 1 : ℕ) : ℚ) = (size : ℚ) - 1 := by
    push_cast [h1]
    ring
  have hne : (size : ℚ) - 1 ≠ 0 := by
    have h2 : (2 : ℚ) ≤ (size : ℚ) := by exact_mod_cast h
    intro hz
    linarith
  simp only [GenerateIcon.gradRow, hc, div_self hne, mul_one]
  ring_nf
  simp [pyInt_intCast]

/-- Claim C3: for every size `S ≥ 2` and any colours, `vertical_gradient`
produces an `S × S` image whose pixel in row `y` has channel value
`int(top_c + (bot_c - top_c) * y / (S - 1))` for each channel `c`; row `0`
equals the top colour exactly, row `S - 1` equals the bottom colour exactly,
and all pixels within a row are equal. -/
theorem vertical_gradient_correct (size : ℕ) (top bot : ℤ × ℤ × ℤ) (h : 2 ≤ size) :
    GenerateIcon.gradSpec size top bot := by
  have hguard : ¬(1 ≤ size ∧ size - 1 = 0) := by omega
  refine ⟨(List.range size).map
      (fun y => List.replicate size (GenerateIcon.gradRow size top bot y)),
    ?_, ?_, ?_, ?_, ?_, ?_, ?_⟩
  · simp [GenerateIcon.vertical_gradient, hguard]
  · simp
  · intro row hrow
    obtain ⟨y, hy, rfl⟩ := List.mem_map.mp hrow
    simp
  · intro y x hy hx
    rw [grad_img_pixel size top bot y x hy hx]
    simp [GenerateIcon.gradRow]
  · intro x hx
    rw [grad_img_pixel size top bot 0 x (by omega) hx, gradRow_zero]
  · intro x hx
    rw [grad_img_pixel size top bot (size - 1) x (by omega) hx,
      gradRow_last size top bot h]
  · intro row hrow p hp q hq
    obtain ⟨y, hy, rfl⟩ := List.mem_map.mp hrow
    rw [List.eq_of_mem_replicate hp, List.eq_of_mem_replicate hq]

/-- Concrete instance of claim C3 at size 8 with the indigo palette. -/
theorem vertical_gradient_correct_witness :
    GenerateIcon.gradSpec 8 GenerateIcon.INDIGO_TOP GenerateIcon.INDIGO_BOTTOM :=
  vertical_gradient_correct 8 GenerateIcon.INDIGO_TOP GenerateIcon.INDIGO_BOTTOM
    (by norm_num)

/-- Claim C9 (amended): `vertical_gradient` fails exactly at `size = 1`
(`ZeroDivisionError` from `y / (size - 1)` in the first loop iteration); for
every other size, including `size = 0`, it succeeds; and for the argument
`size * 4` that `make_icon` passes, the call succeeds for every requested
icon size of at least 1. -/
theorem vertical_gradient_fails_iff_size_one :
    (∀ top bot, GenerateIcon.vertical_gradient 1 top bot = none) ∧
    (∀ (size : ℕ) (top bot : ℤ × ℤ × ℤ),
      GenerateIcon.vertical_gradient size top bot = none ↔ size = 1) ∧
    (∀ (size : ℕ) (top bot : ℤ × ℤ × ℤ), 1 ≤ size →
      (GenerateIcon.vertical_gradient (size * 4) top bot).isSome = true) := by
  have key : ∀ (size : ℕ) (top bot : ℤ × ℤ × ℤ),
      GenerateIcon.vertical_gradient size top bot = none ↔ size = 1 := by
    intro size top bot
    by_cases hc : 1 ≤ size ∧ size - 1 = 0
    · simp only [GenerateIcon.vertical_gradient, if_pos hc]
      constructor
      · intro _
        omega
      · intro _
        trivial
    · simp only [GenerateIcon.vertical_gradient, if_neg hc]
      constructor
      · intro hsome
        simp at hsome
      · intro h1
        subst h1
        exact absurd ⟨le_refl 1, rfl⟩ hc
  refine ⟨fun top bot => (key 1 top bot).mpr rfl, key, ?_⟩
  intro size top bot hs
  cases hvg : GenerateIcon.vertical_gradient (size * 4) top bot with
  | none =>
    exfalso
    have := (key (size * 4) top bot).mp hvg
    omega
  | some img => rfl

/-- Concrete instance of claim C9 (amended): failure at size 1 and success
at `1 * 4`, the supersampled canvas size for the smallest icon size. -/
theorem vertical_gradient_fails_iff_size_one_witness :
    GenerateIcon.vertical_gradient 1 GenerateIcon.INDIGO_TOP
      GenerateIcon.INDIGO_BOTTOM = none ∧
    (GenerateIcon.vertical_gradient (1 * 4) GenerateIcon.INDIGO_TOP
      GenerateIcon.INDIGO_BOTTOM).isSome = true :=
  ⟨vertical_gradient_fails_iff_size_one.1 GenerateIcon.INDIGO_TOP
      GenerateIcon.INDIGO_BOTTOM,
   vertical_gradient_fails_iff_size_one.2.2 1 GenerateIcon.INDIGO_TOP
      GenerateIcon.INDIGO_BOTTOM (by norm_num)⟩

/-- Claim C9 counterexample: `vertical_gradient` is not total only for sizes
at least 2 — at `size = 0` the Python loop body never runs, no division by
zero happens, and the call succeeds, returning an empty image. -/
theorem vertical_gradient_total_at_zero :
    (GenerateIcon.vertical_gradient 0 GenerateIcon.INDIGO_TOP
      GenerateIcon.INDIGO_BOTTOM).isSome = true ∧
    GenerateIcon.vertical_gradient 0 GenerateIcon.INDIGO_TOP
      GenerateIcon.INDIGO_BOTTOM = some [] := by
  constructor <;> rfl

/-- Claim C4: `make_icon(size)` performs all background, masking and glyph
drawing on a canvas of `size * 4` pixels and then downsamples exactly once,
as the final step, to `size × size` with the LANCZOS filter, so the returned
canvas is `size × size`; `make_vaulty_favicon` draws every operation
directly at the requested size and has no resize step. -/
theorem make_icon_supersamples_favicon_direct (size : ℕ) :
    GenerateIcon.make_icon size = Canvas.mk size size ∧
    (GenerateIcon.make_icon_trace size).filter DrawOp.isResize =
      [DrawOp.resize size size Resample.lanczos] ∧
    (GenerateIcon.make_icon_trace size).getLast? =
      some (DrawOp.resize size size Resample.lanczos) ∧
    ((GenerateIcon.make_icon_trace size).filter
      (fun op => !op.isResize)).all (fun op => op.canvasSize == size * 4) = true ∧
    (GenerateFavicon.favicon_trace size).all (fun op => !op.isResize) = true ∧
    (GenerateFavicon.favicon_trace size).all (fun op => op.canvasSize == size) = true ∧
    GenerateFavicon.make_vaulty_favicon size = Canvas.mk size size := by
  refine ⟨rfl, ?_, ?_, ?_, ?_, ?_, rfl⟩ <;>
    simp [GenerateIcon.make_icon_trace, GenerateFavicon.favicon_trace,
      GenerateIcon.SCALE, DrawOp.isResize, DrawOp.canvasSize, List.range_succ]

/-- Claim C5 counterexample: with a save that fails at size 32 (the second
entry of `SIZES`), the run aborts with only the size-16 file written — a
failed run does not leave the filesystem unchanged for every size. -/
theorem icon_run_leaves_earlier_outputs :
    GenerateIcon.run_writes (fun sz => !(sz == 32)) GenerateIcon.SIZES =
      ([16], false) := by
  decide

/-- Claim C5 (amended): the main loop writes files in `SIZES` order with no
rollback: after any run, successful or aborted, the set of written files is
a prefix of the requested size list, and the run completed iff every
requested size was written.  A failure at one size leaves the files for
earlier sizes on disk and writes nothing for that size or later ones. -/
theorem icon_run_writes_in_order (saveOk : ℕ → Bool) (szs : List ℕ) :
    (∃ n, (GenerateIcon.run_writes saveOk szs).1 = szs.take n) ∧
    ((GenerateIcon.run_writes saveOk szs).2 = true ↔
      (GenerateIcon.run_writes saveOk szs).1 = szs) := by
  induction szs with
  | nil => exact ⟨⟨0, rfl⟩, by simp [GenerateIcon.run_writes]⟩
  | cons sz rest ih =>
    obtain ⟨⟨n, hn⟩, hiff⟩ := ih
    by_cases hs : saveOk sz
    · refine ⟨⟨n + 1, ?_⟩, ?_⟩
      · simp [GenerateIcon.run_writes, hs, hn]
      · simp [GenerateIcon.run_writes, hs, hiff]
    · refine ⟨⟨0, ?_⟩, ?_⟩ <;> simp [GenerateIcon.run_writes, hs]

/-- Claim C6: `save_favicon` renders the favicon pipeline exactly once, at
the largest requested size 64, and invokes the ICO writer once with the full
embedded-resolution list `[(16, 16), (32, 32), (48, 48), (64, 64)]`,
producing a single output file. -/
theorem save_favicon_single_render_multi_res :
    GenerateFavicon.save_favicon.renderedSizes = [64] ∧
    GenerateFavicon.save_favicon.renderedSizes.length = 1 ∧
    GenerateFavicon.save_favicon.sizesArg = [(16, 16), (32, 32), (48, 48), (64, 64)] ∧
    GenerateFavicon.save_favicon.format = "ICO" ∧
    GenerateFavicon.save_favicon.fileCount = 1 ∧
    GenerateFavicon.sizes = [16, 32, 48, 64] :=
  ⟨rfl, rfl, rfl, rfl, rfl, rfl⟩

/-- Claim C7: the icon main loop renders once per size in the order
`SIZES = [16, 32, 48, 128]` and writes exactly one PNG per size at
`extension/icons/icon-{size}.png` — four files with pairwise distinct
paths, each holding the `size × size` canvas from that size's own
pipeline run. -/
theorem icon_main_writes_four_pngs :
    GenerateIcon.main_run =
      [("extension/icons/icon-16.png", Canvas.mk 16 16),
       ("extension/icons/icon-32.png", Canvas.mk 32 32),
       ("extension/icons/icon-48.png", Canvas.mk 48 48),
       ("extension/icons/icon-128.png", Canvas.mk 128 128)] ∧
    GenerateIcon.main_run.length = 4 ∧
    (GenerateIcon.main_run.map Prod.fst).Nodup ∧
    GenerateIcon.SIZES = [16, 32, 48, 128] := by
  refine ⟨by decide, rfl, by decide, rfl⟩

/-- Claim C8: the favicon highlight ring performs exactly 4 iterations,
`i = 0..3`; iteration `i` draws a width-1 rounded-rectangle outline from
corner `(i, i)` to corner `(size - 1 - i, size - 1 - i)` with alpha
`max 0 (60 - 15 * i)`, on a fresh transparent overlay that is
alpha-composited onto the accumulating canvas. -/
theorem favicon_highlight_ring_spec (size : ℕ) :
    (GenerateFavicon.highlight_rings size).length = 4 ∧
    ∀ i : ℕ, i < 4 →
      (GenerateFavicon.highlight_rings size)[i]? = some
        { inset := i,
          corner0 := ((i : ℤ), (i : ℤ)),
          corner1 := ((size : ℤ) - 1 - (i : ℤ), (size : ℤ) - 1 - (i : ℤ)),
          outlineWidth := 1,
          alpha := max 0 (60 - 15 * (i : ℤ)),
          freshOverlay := true } := by
  constructor
  · simp [GenerateFavicon.highlight_rings]
  · intro i hi
    simp [GenerateFavicon.highlight_rings, List.getElem?_map, List.getElem?_range, hi,
      mul_comm]

/-- Concrete instance of claim C8 at `size = 64`, iteration `i = 2`. -/
theorem favicon_highlight_ring_spec_witness :
    (GenerateFavicon.highlight_rings 64)[2]? = some
      { inset := 2,
        corner0 := (((2 : ℕ) : ℤ), ((2 : ℕ) : ℤ)),
        corner1 := (((64 : ℕ) : ℤ) - 1 - ((2 : ℕ) : ℤ),
                    ((64 : ℕ) : ℤ) - 1 - ((2 : ℕ) : ℤ)),
        outlineWidth := 1,
        alpha := max 0 (60 - 15 * ((2 : ℕ) : ℤ)),
        freshOverlay := true } :=
  (favicon_highlight_ring_spec 64).2 2 (by norm_num)
